import Mathlib

/-!
Shallow embedding of the library book-loan management application
(`app/app.py` route layer plus the loan-lifecycle model methods).

The data model: `Book` (per-title copy counts), `Member` (identity and
role flag), `Loan` (the loan-lifecycle state machine).  Dates are days
as integers; the datastore is a `LibraryState` holding the two
collections and a fresh-id counter.

The model class `app/model.py` (holding `Loan.create_loan`,
`renew_loan`, `return_loan`, `delete_loan` and the field declarations)
is not present in the repository snapshot; those operations are
modelled from the specification, as marked on each definition.  The
route handlers (`make_loan`, `my_loans`, `return_loan_route`,
`renew_loan_route`, `delete_loan_route`, `add_book`) are embedded from
`app/app.py`.
-/

/-- A book document: fields as constructed by the `add_book` route in
`app/app.py` (`title`, `category`, `genres`, `url`, `description`,
`authors`, `pages`, `copies`, `available`). -/
structure Book where
  title : String
  category : String
  genres : List String
  url : String
  description : List String
  authors : List String
  pages : Int
  copies : Int
  available : Int
  deriving Repr, DecidableEq

/-- A user document: identity, email, display name and the admin role
flag (`is_admin` property on the `User` model). -/
structure Member where
  id : Nat
  email : String
  name : String
  is_admin : Bool
  deriving Repr, DecidableEq

/-- A loan document: owning member (by id), referenced book (by its
unique title), borrow/due/return dates (days as integers, `returnDate`
nullable) and the renewal counter. -/
structure Loan where
  id : Nat
  member : Nat
  book : String
  borrowDate : Int
  dueDate : Int
  returnDate : Option Int
  renewalCount : Nat
  deriving Repr, DecidableEq

/-- Modelled from the spec: the loan period is a fixed 14 days
(`dueDate = borrowDate + loan period`). -/
def loanPeriod : Int := 14

/-- Modelled from the spec: the configured renewal maximum is 3. -/
def renewalLimit : Nat := 3

/-- Modelled from the spec: the business-rule error taxonomy raised by
the core loan operations (`ValueError` in the source, called
`ValidationError` by the design).  `notFound` stands for the
`DoesNotExist` lookup failure surfaced by the route helpers. -/
inductive ValidationError where
  | noCopiesAvailable
  | adminNotPermitted
  | alreadyReturned
  | overdue
  | renewalLimitReached
  | notReturned
  | notFound
  deriving Repr, DecidableEq

/-- Modelled from the spec: the human-readable message carried by each
business-rule error (the string the route handlers flash verbatim via
`flash(str(e))`). -/
def errMessage : ValidationError → String
  | .noCopiesAvailable => "no copies available"
  | .adminNotPermitted => "admin not permitted"
  | .alreadyReturned => "already returned"
  | .overdue => "overdue"
  | .renewalLimitReached => "renewal limit reached"
  | .notReturned => "not returned"
  | .notFound => "Loan not found or unauthorized access."

/-- The persisted state: the `Book` collection, the `Loan` collection
and the next fresh loan id. -/
structure LibraryState where
  books : List Book
  loans : List Loan
  nextLoanId : Nat
  deriving Repr, DecidableEq

/-- `Book.objects(title=t).first()` / `Book.objects.get(title=t)`:
first book whose (unique) title matches, if any. -/
def find_book : List Book → String → Option Book
  | [], _ => none
  | b :: bs, t => if b.title = t then some b else find_book bs t

/-- `Loan.objects.get(id=loan_id, member=current_user.id)` (the
`get_loan_or_redirect` helper): first loan matching both the id and
the owning member, if any. -/
def find_loan : List Loan → Nat → Nat → Option Loan
  | [], _, _ => none
  | l :: ls, lid, mid =>
      if l.id = lid ∧ l.member = mid then some l else find_loan ls lid mid

/-- Saving a mutated book document: replace the stored document with
the same (unique) title. -/
def update_book (books : List Book) (b : Book) : List Book :=
  books.map (fun x => if x.title = b.title then b else x)

/-- Saving a mutated loan document: replace the stored document with
the same id. -/
def update_loan (loans : List Loan) (l : Loan) : List Loan :=
  loans.map (fun x => if x.id = l.id then l else x)

/-- Modelled from the spec: `Loan.create_loan(member, book)` from the
missing `app/model.py`.  Fails with `adminNotPermitted` for an
administrator, with `noCopiesAvailable` when `book.available = 0`;
otherwise decrements the availability counter and builds the new loan
with `borrowDate = now`, `dueDate = now + loanPeriod`,
`returnDate = null`, `renewalCount = 0`. -/
def create_loan (now : Int) (newId : Nat) (member : Member) (book : Book) :
    Except ValidationError (Loan × Book) :=
  if member.is_admin then .error .adminNotPermitted
  else if book.available = 0 then .error .noCopiesAvailable
  else
    .ok ({ id := newId, member := member.id, book := book.title,
           borrowDate := now, dueDate := now + loanPeriod,
           returnDate := none, renewalCount := 0 },
         { book with available := book.available - 1 })

/-- Modelled from the spec: `loan.renew_loan()` from the missing
`app/model.py`.  Fails with `alreadyReturned` when `returnDate` is
set, with `overdue` when the current date is past `dueDate`, with
`renewalLimitReached` when the renewal counter has reached the
maximum; otherwise extends `dueDate` by the loan period and increments
`renewalCount`. -/
def renew_loan (now : Int) (loan : Loan) : Except ValidationError Loan :=
  if loan.returnDate.isSome then .error .alreadyReturned
  else if loan.dueDate < now then .error .overdue
  else if renewalLimit ≤ loan.renewalCount then .error .renewalLimitReached
  else
    .ok { loan with dueDate := loan.dueDate + loanPeriod,
                    renewalCount := loan.renewalCount + 1 }

/-- Modelled from the spec: `loan.return_loan()` from the missing
`app/model.py`.  Fails with `alreadyReturned` when `returnDate` is
already set; otherwise stamps `returnDate` with the current date and
increments the book availability counter. -/
def return_loan (now : Int) (loan : Loan) (book : Book) :
    Except ValidationError (Loan × Book) :=
  if loan.returnDate.isSome then .error .alreadyReturned
  else
    .ok ({ loan with returnDate := some now },
         { book with available := book.available + 1 })

/-- Modelled from the spec: `loan.delete_loan()` from the missing
`app/model.py`.  Fails with `notReturned` when `returnDate` is null;
otherwise the record may be purged. -/
def delete_loan (loan : Loan) : Except ValidationError Unit :=
  if loan.returnDate.isNone then .error .notReturned
  else .ok ()

/-- The loan-creation transaction behind the `make_loan` route: look
the book up by title, run `create_loan`, persist the mutated book and
insert the new loan. -/
def sys_make_loan (now : Int) (member : Member) (title : String)
    (s : LibraryState) : Except ValidationError LibraryState :=
  match find_book s.books title with
  | none => .error .notFound
  | some book =>
    match create_loan now s.nextLoanId member book with
    | .error e => .error e
    | .ok (loan, book2) =>
        .ok { books := update_book s.books book2,
              loans := s.loans ++ [loan],
              nextLoanId := s.nextLoanId + 1 }

/-- The loan-renewal transaction behind `renew_loan_route`: look the
loan up by id and owner, run `renew_loan`, persist the mutated loan.
No book is touched. -/
def sys_renew_loan (now : Int) (member : Member) (loanId : Nat)
    (s : LibraryState) : Except ValidationError LibraryState :=
  match find_loan s.loans loanId member.id with
  | none => .error .notFound
  | some loan =>
    match renew_loan now loan with
    | .error e => .error e
    | .ok loan2 => .ok { s with loans := update_loan s.loans loan2 }

/-- The loan-return transaction behind `return_loan_route`: look the
loan up by id and owner, look its book up, run `return_loan`, persist
the mutated loan and book. -/
def sys_return_loan (now : Int) (member : Member) (loanId : Nat)
    (s : LibraryState) : Except ValidationError LibraryState :=
  match find_loan s.loans loanId member.id with
  | none => .error .notFound
  | some loan =>
    match find_book s.books loan.book with
    | none => .error .notFound
    | some book =>
      match return_loan now loan book with
      | .error e => .error e
      | .ok (loan2, book2) =>
          .ok { s with loans := update_loan s.loans loan2,
                       books := update_book s.books book2 }

/-- The loan-deletion transaction behind `delete_loan_route`: look the
loan up by id and owner, run `delete_loan`, remove the record.  No
book is touched. -/
def sys_delete_loan (member : Member) (loanId : Nat)
    (s : LibraryState) : Except ValidationError LibraryState :=
  match find_loan s.loans loanId member.id with
  | none => .error .notFound
  | some loan =>
    match delete_loan loan with
    | .error e => .error e
    | .ok _ => .ok { s with loans := s.loans.filter (fun x => x.id ≠ loanId) }

/-- The `make_loan` route handler from `app/app.py`: admin guard, then
the loan-creation transaction; every `ValueError` message is flashed
verbatim (`flash(str(e))`), a missing book gets the not-found flash,
success gets a confirmation flash.  Returns the flashed messages and
the resulting state. -/
def make_loan_route (now : Int) (member : Member) (title : String)
    (s : LibraryState) : List String × LibraryState :=
  if member.is_admin then
    (["Admin users are not permitted to make loans."], s)
  else
    match sys_make_loan now member title s with
    | .error .notFound => (["Error: Book title " ++ title ++ " not found."], s)
    | .error e => ([errMessage e], s)
    | .ok s2 => (["Successfully borrowed " ++ title ++ "."], s2)

/-- The `renew_loan_route` handler from `app/app.py`: admin guard,
loan lookup, then `renew_loan` with `flash(str(e))` on failure. -/
def renew_loan_route (now : Int) (member : Member) (loanId : Nat)
    (s : LibraryState) : List String × LibraryState :=
  if member.is_admin then (["Admins cannot renew loans."], s)
  else
    match sys_renew_loan now member loanId s with
    | .error .notFound => ([errMessage .notFound], s)
    | .error e => ([errMessage e], s)
    | .ok s2 => (["Renewed successfully."], s2)

/-- The `return_loan_route` handler from `app/app.py`: admin guard,
loan lookup, then `return_loan` with `flash(str(e))` on failure. -/
def return_loan_route (now : Int) (member : Member) (loanId : Nat)
    (s : LibraryState) : List String × LibraryState :=
  if member.is_admin then (["Admins cannot return loans for other users."], s)
  else
    match sys_return_loan now member loanId s with
    | .error .notFound => ([errMessage .notFound], s)
    | .error e => ([errMessage e], s)
    | .ok s2 => (["Returned successfully."], s2)

/-- The `delete_loan_route` handler from `app/app.py`: admin guard,
loan lookup, then `delete_loan` with `flash(str(e))` on failure. -/
def delete_loan_route (member : Member) (loanId : Nat)
    (s : LibraryState) : List String × LibraryState :=
  if member.is_admin then (["Admins cannot delete loans."], s)
  else
    match sys_delete_loan member loanId s with
    | .error .notFound => ([errMessage .notFound], s)
    | .error e => ([errMessage e], s)
    | .ok s2 => (["Loan record deleted."], s2)

/-- `Loan.objects(member=current_user).order_by(-borrowDate)` from the
`my_loans` route: the member's loans sorted by borrow date descending
(most recent first), with no limit applied. -/
def list_loans (s : LibraryState) (memberId : Nat) : List Loan :=
  (s.loans.filter (fun l => l.member = memberId)).mergeSort
    (fun a b => b.borrowDate ≤ a.borrowDate)

/-- The `my_loans` route handler from `app/app.py`: admins are
redirected away (`none`); otherwise the member's ordered loan list is
rendered.  The state is returned to witness that the route is
read-only. -/
def my_loans (member : Member) (s : LibraryState) :
    Option (List Loan) × LibraryState :=
  if member.is_admin then (none, s)
  else (some (list_loans s member.id), s)

/-- The book constructed and saved by the `add_book` route in
`app/app.py`: `available` is initialised to `copies`
(`copies=form.copies.data, available=form.copies.data`). -/
def new_book (title category url : String) (genres description authors : List String)
    (pages copies : Int) : Book :=
  { title := title, category := category, genres := genres, url := url,
    description := description, authors := authors, pages := pages,
    copies := copies, available := copies }

/-- The `add_book` route handler from `app/app.py`: constructs the new
book from the validated form data and saves it (`new_book.save()`). -/
def add_book (title category url : String) (genres description authors : List String)
    (pages copies : Int) (s : LibraryState) : LibraryState :=
  { s with books := s.books ++
      [new_book title category url genres description authors pages copies] }

/-- Number of outstanding (not yet returned) loans against the book
with the given title. -/
def outstanding (loans : List Loan) (t : String) : Nat :=
  loans.countP (fun l => l.book = t && l.returnDate.isNone)

/-- The datastore invariants the loan engine maintains: unique book
titles, unique loan ids, loan ids below the fresh-id counter, and for
every book a non-negative availability counter satisfying
`available + outstanding = copies` (from which
`0 ≤ available ≤ copies` follows). -/
def StoreInv (s : LibraryState) : Prop :=
  s.books.Pairwise (fun a b => a.title ≠ b.title) ∧
  s.loans.Pairwise (fun a b => a.id ≠ b.id) ∧
  (∀ l ∈ s.loans, l.id < s.nextLoanId) ∧
  (∀ b ∈ s.books, 0 ≤ b.available ∧
    b.available + (outstanding s.loans b.title : Int) = b.copies)

/-- The loan record built by a successful `create_loan`. -/
def made_loan (now : Int) (newId : Nat) (member : Member) (book : Book) : Loan :=
  { id := newId, member := member.id, book := book.title,
    borrowDate := now, dueDate := now + loanPeriod,
    returnDate := none, renewalCount := 0 }

/-- The loan record after a successful renewal: due date extended by
the loan period, renewal counter incremented. -/
def renewed_loan (loan : Loan) : Loan :=
  { loan with dueDate := loan.dueDate + loanPeriod,
              renewalCount := loan.renewalCount + 1 }

/-! Concrete sample data, used to exercise the operations on closed
inputs. -/

/-- A sample book with one copy, all of it available. -/
def duneBook : Book :=
  { title := "Dune", category := "SciFi", genres := ["sf"], url := "u",
    description := ["desert planet"], authors := ["Herbert"], pages := 412,
    copies := 1, available := 1 }

/-- A sample book with no available copies. -/
def emptyBook : Book :=
  { title := "Empty", category := "SciFi", genres := [], url := "v",
    description := [], authors := ["Nobody"], pages := 9,
    copies := 2, available := 0 }

/-- A sample non-admin member. -/
def aliceMember : Member :=
  { id := 1, email := "alice@mail", name := "Alice", is_admin := false }

/-- The administrator account. -/
def adminMember : Member :=
  { id := 2, email := "admin@lib.sg", name := "Admin", is_admin := true }

/-- A state with one fully available book and no loans. -/
def sampleState : LibraryState :=
  { books := [duneBook], loans := [], nextLoanId := 0 }

/-- An outstanding loan of `emptyBook`. -/
def emptyLoan1 : Loan :=
  { id := 3, member := 1, book := "Empty", borrowDate := 0, dueDate := 14,
    returnDate := none, renewalCount := 0 }

/-- A second outstanding loan of `emptyBook`. -/
def emptyLoan2 : Loan :=
  { id := 4, member := 1, book := "Empty", borrowDate := 1, dueDate := 15,
    returnDate := none, renewalCount := 0 }

/-- A state whose only book has no available copies. -/
def emptyState : LibraryState :=
  { books := [emptyBook], loans := [emptyLoan1, emptyLoan2], nextLoanId := 5 }

/-- An outstanding loan of `duneBook` by `aliceMember`. -/
def activeLoan : Loan :=
  { id := 0, member := 1, book := "Dune", borrowDate := 0, dueDate := 14,
    returnDate := none, renewalCount := 0 }

/-- An already-returned loan of `duneBook` by `aliceMember`. -/
def returnedLoan : Loan :=
  { id := 0, member := 1, book := "Dune", borrowDate := 0, dueDate := 14,
    returnDate := some 10, renewalCount := 0 }

/-- An outstanding loan at the renewal limit. -/
def maxedLoan : Loan :=
  { id := 0, member := 1, book := "Dune", borrowDate := 0, dueDate := 14,
    returnDate := none, renewalCount := 3 }

/-- A state in which `aliceMember` holds `activeLoan` on `duneBook`. -/
def borrowedState : LibraryState :=
  { books := [{ duneBook with available := 0 }], loans := [activeLoan],
    nextLoanId := 1 }

/-- A state in which `aliceMember` holds `maxedLoan` on `duneBook`. -/
def maxedState : LibraryState :=
  { books := [{ duneBook with available := 0 }], loans := [maxedLoan],
    nextLoanId := 1 }

/-- A state in which `aliceMember` has a returned loan on `duneBook`. -/
def returnedState : LibraryState :=
  { books := [duneBook], loans := [returnedLoan], nextLoanId := 1 }

/-- A loan by `aliceMember` borrowed on day 3. -/
def loanA : Loan :=
  { id := 10, member := 1, book := "Dune", borrowDate := 3, dueDate := 17,
    returnDate := none, renewalCount := 0 }

/-- A loan by `aliceMember` borrowed on day 7, already returned. -/
def loanB : Loan :=
  { id := 11, member := 1, book := "Dune", borrowDate := 7, dueDate := 21,
    returnDate := some 9, renewalCount := 0 }

/-- A loan owned by some other member. -/
def loanC : Loan :=
  { id := 12, member := 5, book := "Dune", borrowDate := 4, dueDate := 18,
    returnDate := none, renewalCount := 1 }

/-- A state holding a mixed loan history. -/
def listState : LibraryState :=
  { books := [duneBook], loans := [loanA, loanB, loanC], nextLoanId := 13 }

/-! Helper lemmas about the lookup and save operations. -/

theorem find_book_eq_some {books : List Book} {t : String} {b : Book}
    (h : find_book books t = some b) : b ∈ books ∧ b.title = t := by
  induction books with
  | nil => simp [find_book] at h
  | cons x xs ih =>
    rw [find_book] at h
    by_cases hx : x.title = t
    · rw [if_pos hx] at h
      injection h with h
      subst h
      exact ⟨List.mem_cons_self _ _, hx⟩
    · rw [if_neg hx] at h
      rcases ih h with ⟨hmem, ht⟩
      exact ⟨List.mem_cons_of_mem _ hmem, ht⟩

theorem find_loan_eq_some {ls : List Loan} {lid mid : Nat} {l : Loan}
    (h : find_loan ls lid mid = some l) :
    l ∈ ls ∧ l.id = lid ∧ l.member = mid := by
  induction ls with
  | nil => simp [find_loan] at h
  | cons x xs ih =>
    rw [find_loan] at h
    by_cases hx : x.id = lid ∧ x.member = mid
    · rw [if_pos hx] at h
      injection h with h
      subst h
      exact ⟨List.mem_cons_self _ _, hx⟩
    · rw [if_neg hx] at h
      rcases ih h with ⟨hmem, ht⟩
      exact ⟨List.mem_cons_of_mem _ hmem, ht⟩

theorem find_book_update_self {books : List Book} {t : String} {b b2 : Book}
    (h : find_book books t = some b) (h2 : b2.title = t) :
    find_book (update_book books b2) t = some b2 := by
  induction books with
  | nil => simp [find_book] at h
  | cons x xs ih =>
    rw [find_book] at h
    rw [update_book, List.map_cons]
    by_cases hx : x.title = t
    · rw [if_pos (by rw [hx, h2])]
      rw [find_book, if_pos h2]
    · rw [if_neg (by rw [h2]; exact hx)]
      rw [find_book, if_neg hx]
      rw [if_neg hx] at h
      exact ih h

theorem find_loan_update_self {ls : List Loan} {lid mid : Nat} {loan l2 : Loan}
    (h : find_loan ls lid mid = some loan) (hid : l2.id = lid)
    (hm : l2.member = mid) :
    find_loan (update_loan ls l2) lid mid = some l2 := by
  induction ls with
  | nil => simp [find_loan] at h
  | cons x xs ih =>
    rw [find_loan] at h
    rw [update_loan, List.map_cons]
    by_cases hx : x.id = l2.id
    · rw [if_pos hx, find_loan, if_pos ⟨hid, hm⟩]
    · have hxm : ¬ (x.id = lid ∧ x.member = mid) := by
        intro hc
        exact hx (hc.1.trans hid.symm)
      rw [if_neg hx, find_loan, if_neg hxm]
      rw [if_neg hxm] at h
      exact ih h

theorem find_loan_append {ls ls2 : List Loan} {lid mid : Nat}
    (h : ∀ l ∈ ls, l.id ≠ lid) :
    find_loan (ls ++ ls2) lid mid = find_loan ls2 lid mid := by
  induction ls with
  | nil => rfl
  | cons x xs ih =>
    have hx : ¬ (x.id = lid ∧ x.member = mid) :=
      fun hc => h x (List.mem_cons_self _ _) hc.1
    rw [List.cons_append, find_loan, if_neg hx]
    exact ih fun l hl => h l (List.mem_cons_of_mem _ hl)

theorem find_loan_eq_none {ls : List Loan} {lid mid : Nat}
    (h : ∀ l ∈ ls, l.id ≠ lid) : find_loan ls lid mid = none := by
  induction ls with
  | nil => rfl
  | cons x xs ih =>
    have hx : ¬ (x.id = lid ∧ x.member = mid) :=
      fun hc => h x (List.mem_cons_self _ _) hc.1
    rw [find_loan, if_neg hx]
    exact ih fun l hl => h l (List.mem_cons_of_mem _ hl)

theorem update_loan_of_fresh {ls : List Loan} {l2 : Loan}
    (h : ∀ x ∈ ls, x.id ≠ l2.id) : update_loan ls l2 = ls := by
  induction ls with
  | nil => rfl
  | cons x xs ih =>
    rw [update_loan, List.map_cons, if_neg (h x (List.mem_cons_self _ _))]
    have htail := ih fun y hy => h y (List.mem_cons_of_mem _ hy)
    rw [update_loan] at htail
    rw [htail]

theorem countP_update_loan {ls : List Loan} {loan : Loan} (l2 : Loan) (p : Loan → Bool)
    (huniq : ls.Pairwise fun a b => a.id ≠ b.id) (hmem : loan ∈ ls)
    (hid : l2.id = loan.id) :
    (update_loan ls l2).countP p + (if p loan then 1 else 0)
      = ls.countP p + (if p l2 then 1 else 0) := by
  induction ls with
  | nil => cases hmem
  | cons x xs ih =>
    rw [List.pairwise_cons] at huniq
    rw [update_loan, List.map_cons]
    by_cases hx : x.id = l2.id
    · have hxl : loan = x := by
        rcases List.mem_cons.mp hmem with h | h
        · exact h
        · exact absurd (hid ▸ hx) (huniq.1 loan h)
      have htail : update_loan xs l2 = xs := by
        refine update_loan_of_fresh fun y hy hc => ?_
        exact huniq.1 y hy (hx ▸ hc ▸ rfl)
      rw [if_pos hx]
      have htail2 : List.map (fun x => if x.id = l2.id then l2 else x) xs = xs := by
        rw [update_loan] at htail
        exact htail
      rw [htail2, List.countP_cons, List.countP_cons, hxl]
      omega
    · have hmem2 : loan ∈ xs := by
        rcases List.mem_cons.mp hmem with h | h
        · exact absurd (hid ▸ h ▸ rfl) (Ne.symm hx)
        · exact h
      rw [if_neg hx, List.countP_cons, List.countP_cons]
      have := ih huniq.2 hmem2
      rw [update_loan] at this
      omega

theorem countP_filter_remove {ls : List Loan} {loan : Loan} {lid : Nat}
    (p : Loan → Bool)
    (huniq : ls.Pairwise fun a b => a.id ≠ b.id) (hmem : loan ∈ ls)
    (hid : loan.id = lid) (hp : p loan = false) :
    (ls.filter fun x => x.id ≠ lid).countP p = ls.countP p := by
  induction ls with
  | nil => cases hmem
  | cons x xs ih =>
    rw [List.pairwise_cons] at huniq
    by_cases hx : x.id = lid
    · have hxl : loan = x := by
        rcases List.mem_cons.mp hmem with h | h
        · exact h
        · exact absurd (hid.symm ▸ hx.symm) (Ne.symm (huniq.1 loan h))
      have hfil : xs.filter (fun x => x.id ≠ lid) = xs := by
        refine List.filter_eq_self.mpr fun y hy => ?_
        have : y.id ≠ lid := fun hc => huniq.1 y hy (hx ▸ hc ▸ rfl)
        simpa using this
      rw [List.filter_cons_of_neg (by simpa using hx), hfil,
        List.countP_cons, ← hxl, hp]
      simp
    · have hmem2 : loan ∈ xs := by
        rcases List.mem_cons.mp hmem with h | h
        · exact absurd (h ▸ hid) hx
        · exact h
      rw [List.filter_cons_of_pos (by simpa using hx),
        List.countP_cons, List.countP_cons, ih huniq.2 hmem2]

theorem pairwise_titles_update_book {books : List Book} {b2 : Book}
    (h : books.Pairwise fun a b => a.title ≠ b.title) :
    (update_book books b2).Pairwise fun a b => a.title ≠ b.title := by
  have hpt : ∀ x : Book,
      ((fun x => if x.title = b2.title then b2 else x) x).title = x.title := by
    intro x
    show (if x.title = b2.title then b2 else x).title = x.title
    by_cases hx : x.title = b2.title
    · rw [if_pos hx, hx]
    · rw [if_neg hx]
  refine List.Pairwise.map _ (fun a b hab => ?_) h
  rw [hpt a, hpt b]
  exact hab

theorem pairwise_ids_update_loan {ls : List Loan} {l2 : Loan}
    (h : ls.Pairwise fun a b => a.id ≠ b.id) :
    (update_loan ls l2).Pairwise fun a b => a.id ≠ b.id := by
  have hpt : ∀ x : Loan,
      ((fun x => if x.id = l2.id then l2 else x) x).id = x.id := by
    intro x
    show (if x.id = l2.id then l2 else x).id = x.id
    by_cases hx : x.id = l2.id
    · rw [if_pos hx, hx]
    · rw [if_neg hx]
  refine List.Pairwise.map _ (fun a b hab => ?_) h
  rw [hpt a, hpt b]
  exact hab

theorem mem_update_loan_id {ls : List Loan} {l2 y : Loan}
    (hy : y ∈ update_loan ls l2) : ∃ x ∈ ls, y.id = x.id := by
  rw [update_loan] at hy
  rcases List.mem_map.mp hy with ⟨x, hx, hfx⟩
  refine ⟨x, hx, ?_⟩
  by_cases h : x.id = l2.id
  · rw [if_pos h] at hfx
    rw [← hfx, h]
  · rw [if_neg h] at hfx
    rw [← hfx]

theorem mem_update_book {books : List Book} {b2 b : Book}
    (h : b ∈ update_book books b2) :
    b = b2 ∨ (b ∈ books ∧ b.title ≠ b2.title) := by
  rw [update_book] at h
  rcases List.mem_map.mp h with ⟨x, hx, hfx⟩
  by_cases ht : x.title = b2.title
  · rw [if_pos ht] at hfx
    exact Or.inl hfx.symm
  · rw [if_neg ht] at hfx
    exact Or.inr ⟨hfx ▸ hx, hfx ▸ ht⟩

theorem outstanding_append (ls : List Loan) (l : Loan) (t : String) :
    outstanding (ls ++ [l]) t
      = outstanding ls t
        + (if l.book = t ∧ l.returnDate = none then 1 else 0) := by
  rw [outstanding, outstanding, List.countP_append, List.countP_singleton]
  congr 1
  simp [Option.isNone_iff_eq_none]

/-- Unfolding `outstanding` back to the `countP` the counting lemmas
speak about. -/
theorem outstanding_eq_countP (ls : List Loan) (t : String) :
    outstanding ls t
      = ls.countP fun l => l.book = t && l.returnDate.isNone := rfl

/-- The `0 ≤ available ≤ copies` range follows from the datastore
invariants: `available = copies - outstanding` and `outstanding ≥ 0`. -/
theorem storeInv_range {s : LibraryState} (h : StoreInv s) :
    ∀ b ∈ s.books, 0 ≤ b.available ∧ b.available ≤ b.copies := by
  intro b hb
  rcases h with ⟨-, -, -, hcons⟩
  rcases hcons b hb with ⟨h0, h1⟩
  have hn : (0 : Int) ≤ (outstanding s.loans b.title : Int) :=
    Int.natCast_nonneg _
  omega

/-! Success and failure characterizations of the four transactions. -/

theorem sys_make_loan_ok (now : Int) {member : Member} {title : String}
    {s : LibraryState} {book : Book}
    (hb : find_book s.books title = some book)
    (ha : member.is_admin = false) (hav : book.available ≠ 0) :
    sys_make_loan now member title s = .ok
      { books := update_book s.books { book with available := book.available - 1 },
        loans := s.loans ++ [made_loan now s.nextLoanId member book],
        nextLoanId := s.nextLoanId + 1 } := by
  simp only [sys_make_loan, hb, create_loan, ha, made_loan,
    Bool.false_eq_true, if_false, if_neg hav]

theorem sys_make_loan_admin (now : Int) {member : Member} {title : String}
    {s : LibraryState} {book : Book}
    (hb : find_book s.books title = some book)
    (ha : member.is_admin = true) :
    sys_make_loan now member title s = .error .adminNotPermitted := by
  simp only [sys_make_loan, hb, create_loan, ha, if_true]

theorem sys_make_loan_noCopies (now : Int) {member : Member} {title : String}
    {s : LibraryState} {book : Book}
    (hb : find_book s.books title = some book)
    (ha : member.is_admin = false) (hav : book.available = 0) :
    sys_make_loan now member title s = .error .noCopiesAvailable := by
  simp only [sys_make_loan, hb, create_loan, ha,
    Bool.false_eq_true, if_false, if_pos hav]

theorem sys_renew_loan_ok {now : Int} {member : Member} {lid : Nat}
    {s : LibraryState} {loan : Loan}
    (hl : find_loan s.loans lid member.id = some loan)
    (hr : loan.returnDate = none) (hd : ¬ loan.dueDate < now)
    (hc : ¬ renewalLimit ≤ loan.renewalCount) :
    sys_renew_loan now member lid s = .ok
      { s with loans := update_loan s.loans (renewed_loan loan) } := by
  simp only [sys_renew_loan, hl, renew_loan, hr, renewed_loan,
    Option.isSome_none, Bool.false_eq_true, if_false, if_neg hd, if_neg hc]

theorem sys_return_loan_ok (now : Int) {member : Member} {lid : Nat}
    {s : LibraryState} {loan : Loan} {book : Book}
    (hl : find_loan s.loans lid member.id = some loan)
    (hb : find_book s.books loan.book = some book)
    (hr : loan.returnDate = none) :
    sys_return_loan now member lid s = .ok
      { s with loans := update_loan s.loans { loan with returnDate := some now },
               books := update_book s.books
                 { book with available := book.available + 1 } } := by
  simp only [sys_return_loan, hl, hb, return_loan, hr,
    Option.isSome_none, Bool.false_eq_true, if_false]

theorem sys_delete_loan_ok {member : Member} {lid : Nat}
    {s : LibraryState} {loan : Loan}
    (hl : find_loan s.loans lid member.id = some loan)
    (hr : loan.returnDate ≠ none) :
    sys_delete_loan member lid s = .ok
      { s with loans := s.loans.filter fun x => x.id ≠ lid } := by
  rcases Option.ne_none_iff_exists'.mp hr with ⟨r, hr2⟩
  simp only [sys_delete_loan, hl, delete_loan, hr2, Option.isNone_some,
    Bool.false_eq_true, if_false]

/-! Preservation of the datastore invariants by the loan-creation and
loan-return transactions. -/

theorem storeInv_make_loan {now : Int} {member : Member} {title : String}
    {s s2 : LibraryState} (hinv : StoreInv s)
    (h : sys_make_loan now member title s = .ok s2) : StoreInv s2 := by
  cases hb : find_book s.books title with
  | none =>
    simp only [sys_make_loan, hb] at h
    exact Except.noConfusion h
  | some book =>
    cases ha : member.is_admin with
    | true =>
      rw [sys_make_loan_admin now hb ha] at h
      exact Except.noConfusion h
    | false =>
      by_cases hav : book.available = 0
      · rw [sys_make_loan_noCopies now hb ha hav] at h
        exact Except.noConfusion h
      · rw [sys_make_loan_ok now hb ha hav] at h
        injection h with h
        subst h
        rcases hinv with ⟨ht, hi, hfresh, hcons⟩
        rcases find_book_eq_some hb with ⟨hbmem, hbtitle⟩
        refine ⟨pairwise_titles_update_book ht, ?_, ?_, ?_⟩
        · rw [List.pairwise_append]
          refine ⟨hi, List.pairwise_singleton _ _, ?_⟩
          intro a ha2 b hb2
          rw [List.mem_singleton] at hb2
          subst hb2
          have := hfresh a ha2
          show a.id ≠ s.nextLoanId
          omega
        · intro l hl
          rcases List.mem_append.mp hl with h1 | h1
          · have := hfresh l h1
            show l.id < s.nextLoanId + 1
            omega
          · rw [List.mem_singleton] at h1
            subst h1
            show s.nextLoanId < s.nextLoanId + 1
            omega
        · intro b hbm
          rcases mem_update_book hbm with rfl | ⟨hbm2, hneq⟩
          · rcases hcons book hbmem with ⟨h0, hc⟩
            constructor
            · show 0 ≤ book.available - 1
              omega
            · show book.available - 1
                + (outstanding (s.loans ++ [made_loan now s.nextLoanId member book])
                    book.title : Int) = book.copies
              rw [outstanding_append, if_pos ⟨rfl, rfl⟩]
              push_cast
              omega
          · rcases hcons b hbm2 with ⟨h0, hc⟩
            refine ⟨h0, ?_⟩
            have hcond : ¬ ((made_loan now s.nextLoanId member book).book = b.title
                ∧ (made_loan now s.nextLoanId member book).returnDate = none) := by
              rintro ⟨hb1, -⟩
              simp only [made_loan] at hb1
              exact hneq hb1.symm
            rw [outstanding_append, if_neg hcond]
            simpa using hc

theorem storeInv_return_loan {now : Int} {member : Member} {lid : Nat}
    {s s2 : LibraryState} (hinv : StoreInv s)
    (h : sys_return_loan now member lid s = .ok s2) : StoreInv s2 := by
  cases hl : find_loan s.loans lid member.id with
  | none =>
    simp only [sys_return_loan, hl] at h
    exact Except.noConfusion h
  | some loan =>
    cases hb : find_book s.books loan.book with
    | none =>
      simp only [sys_return_loan, hl, hb] at h
      exact Except.noConfusion h
    | some book =>
      cases hr : loan.returnDate with
      | some r =>
        simp only [sys_return_loan, hl, hb, return_loan, hr,
          Option.isSome_some, if_true] at h
        exact Except.noConfusion h
      | none =>
        rw [sys_return_loan_ok now hl hb hr] at h
        injection h with h
        subst h
        rcases hinv with ⟨ht, hi, hfresh, hcons⟩
        rcases find_loan_eq_some hl with ⟨hlmem, hlid, hlmid⟩
        rcases find_book_eq_some hb with ⟨hbmem, hbtitle⟩
        refine ⟨pairwise_titles_update_book ht, pairwise_ids_update_loan hi,
          ?_, ?_⟩
        · intro y hy
          rcases mem_update_loan_id hy with ⟨x, hx, hyx⟩
          show y.id < s.nextLoanId
          rw [hyx]
          exact hfresh x hx
        · intro b hbm
          rcases mem_update_book hbm with rfl | ⟨hbm2, hneq⟩
          · rcases hcons book hbmem with ⟨h0, hc⟩
            have hcount := countP_update_loan
              { loan with returnDate := some now }
              (fun l => l.book = book.title && l.returnDate.isNone) hi hlmem rfl
            have hploan : (loan.book = book.title && loan.returnDate.isNone) = true := by
              simp [hr, hbtitle]
            have hploan2 : (({ loan with returnDate := some now } : Loan).book
                = book.title
                && ({ loan with returnDate := some now } : Loan).returnDate.isNone)
                = false := by
              simp
            simp only [hploan, hploan2, if_true, if_false, Bool.false_eq_true,
              Nat.add_zero] at hcount
            constructor
            · show 0 ≤ book.available + 1
              omega
            · show book.available + 1
                + (outstanding
                    (update_loan s.loans { loan with returnDate := some now })
                    book.title : Int) = book.copies
              rw [outstanding_eq_countP] at hc ⊢
              omega
          · rcases hcons b hbm2 with ⟨h0, hc⟩
            have hcount := countP_update_loan
              { loan with returnDate := some now }
              (fun l => l.book = b.title && l.returnDate.isNone) hi hlmem rfl
            have hneq2 : ¬ loan.book = b.title := by
              intro hc2
              exact hneq (hc2 ▸ hbtitle).symm
            have hploan : (loan.book = b.title && loan.returnDate.isNone) = false := by
              simp [hneq2]
            have hploan2 : (({ loan with returnDate := some now } : Loan).book
                = b.title
                && ({ loan with returnDate := some now } : Loan).returnDate.isNone)
                = false := by
              simp
            simp only [hploan, hploan2, if_false, Bool.false_eq_true,
              Nat.add_zero] at hcount
            refine ⟨h0, ?_⟩
            show b.available
              + (outstanding
                  (update_loan s.loans { loan with returnDate := some now })
                  b.title : Int) = b.copies
            rw [outstanding_eq_countP] at hc ⊢
            omega

/-! The claims. -/

/-- C1: For every Book, the availability-range invariant
`0 ≤ available ≤ copies` holds after every loan creation and every
loan return: both transactions preserve the datastore invariants, and
the range follows from them. -/
theorem availability_range_after_create_and_return
    (now : Int) (member : Member) (title : String) (lid : Nat)
    (s s2 : LibraryState) (hinv : StoreInv s) :
    (sys_make_loan now member title s = .ok s2 →
      StoreInv s2 ∧ ∀ b ∈ s2.books, 0 ≤ b.available ∧ b.available ≤ b.copies) ∧
    (sys_return_loan now member lid s = .ok s2 →
      StoreInv s2 ∧ ∀ b ∈ s2.books, 0 ≤ b.available ∧ b.available ≤ b.copies) := by
  constructor
  · intro h
    have h2 := storeInv_make_loan hinv h
    exact ⟨h2, storeInv_range h2⟩
  · intro h
    have h2 := storeInv_return_loan hinv h
    exact ⟨h2, storeInv_range h2⟩

/-- Witness for C1: borrowing the sample book and then returning the
borrowed loan both land in states satisfying the availability range. -/
theorem availability_range_after_create_and_return_witness :
    (StoreInv { books := [{ duneBook with available := 0 }],
                loans := [made_loan 5 0 aliceMember duneBook],
                nextLoanId := 1 } ∧
      ∀ b ∈ [{ duneBook with available := 0 }],
        0 ≤ b.available ∧ b.available ≤ b.copies) ∧
    (StoreInv { borrowedState with
                loans := update_loan borrowedState.loans
                  { activeLoan with returnDate := some 9 },
                books := update_book borrowedState.books
                  { (duneBook : Book) with available := 0 + 1 } } ∧
      ∀ b ∈ (update_book borrowedState.books
              { (duneBook : Book) with available := 0 + 1 }),
        0 ≤ b.available ∧ b.available ≤ b.copies) := by
  constructor
  · exact (availability_range_after_create_and_return 5 aliceMember "Dune" 0
      sampleState _ (by unfold StoreInv; decide)).1 rfl
  · exact (availability_range_after_create_and_return 9 aliceMember "Dune" 0
      borrowedState _ (by unfold StoreInv; decide)).2 rfl

/-- C2: `create_loan(member, book)` fails with the no-copies error
when `available = 0`, fails with the admin error for an administrator,
and on success decrements the availability counter by one, sets
`renewalCount = 0` and `returnDate = null`, and persists a new loan
record associated with the member and the book. -/
theorem create_loan_contract
    (now : Int) (member : Member) (title : String) (s : LibraryState)
    (book : Book) (hb : find_book s.books title = some book) :
    (member.is_admin = true →
      sys_make_loan now member title s = .error .adminNotPermitted) ∧
    (member.is_admin = false → book.available = 0 →
      sys_make_loan now member title s = .error .noCopiesAvailable) ∧
    (member.is_admin = false → book.available ≠ 0 →
      sys_make_loan now member title s = .ok
        { books := update_book s.books { book with available := book.available - 1 },
          loans := s.loans ++ [made_loan now s.nextLoanId member book],
          nextLoanId := s.nextLoanId + 1 } ∧
      find_book (update_book s.books { book with available := book.available - 1 })
        title = some { book with available := book.available - 1 } ∧
      (made_loan now s.nextLoanId member book).renewalCount = 0 ∧
      (made_loan now s.nextLoanId member book).returnDate = none ∧
      (made_loan now s.nextLoanId member book).member = member.id ∧
      (made_loan now s.nextLoanId member book).book = book.title) := by
  refine ⟨fun ha => sys_make_loan_admin now hb ha,
          fun ha hav => sys_make_loan_noCopies now hb ha hav,
          fun ha hav => ⟨sys_make_loan_ok now hb ha hav, ?_, rfl, rfl, rfl, rfl⟩⟩
  exact find_book_update_self hb (find_book_eq_some hb).2

/-- Witness for C2: the admin is rejected, the unavailable book is
rejected, and the sample borrow persists the decremented book and the
fresh loan. -/
theorem create_loan_contract_witness :
    sys_make_loan 5 adminMember "Dune" sampleState
      = .error .adminNotPermitted ∧
    sys_make_loan 5 aliceMember "Empty" emptyState
      = .error .noCopiesAvailable ∧
    sys_make_loan 5 aliceMember "Dune" sampleState = .ok
      { books := update_book sampleState.books
          { duneBook with available := duneBook.available - 1 },
        loans := sampleState.loans
          ++ [made_loan 5 sampleState.nextLoanId aliceMember duneBook],
        nextLoanId := sampleState.nextLoanId + 1 } := by
  refine ⟨(create_loan_contract 5 adminMember "Dune" sampleState duneBook rfl).1
            rfl,
          (create_loan_contract 5 aliceMember "Empty" emptyState emptyBook rfl).2.1
            rfl rfl,
          ((create_loan_contract 5 aliceMember "Dune" sampleState duneBook rfl).2.2
            rfl (by decide)).1⟩

/-- C3: `renew_loan(loan)` fails with the already-returned error when
`returnDate` is set, with the overdue error when the current date is
past `dueDate`, with the renewal-limit error when `renewalCount` has
reached the maximum (the route then leaves the state, hence the due
date, unchanged); on success it extends `dueDate` by the loan period
and increments `renewalCount`, and the transaction never mutates any
book. -/
theorem renew_loan_contract
    (now : Int) (loan : Loan) (member : Member) (lid : Nat)
    (s : LibraryState) :
    (loan.returnDate ≠ none → renew_loan now loan = .error .alreadyReturned) ∧
    (loan.returnDate = none → loan.dueDate < now →
      renew_loan now loan = .error .overdue) ∧
    (loan.returnDate = none → ¬ loan.dueDate < now →
      renewalLimit ≤ loan.renewalCount →
      renew_loan now loan = .error .renewalLimitReached) ∧
    (loan.returnDate = none → ¬ loan.dueDate < now →
      loan.renewalCount < renewalLimit →
      renew_loan now loan = .ok (renewed_loan loan) ∧
      (renewed_loan loan).dueDate = loan.dueDate + loanPeriod ∧
      (renewed_loan loan).renewalCount = loan.renewalCount + 1) ∧
    (∀ s2, sys_renew_loan now member lid s = .ok s2 → s2.books = s.books) ∧
    (member.is_admin = false → ∀ e, sys_renew_loan now member lid s = .error e →
      renew_loan_route now member lid s = ([errMessage e], s)) := by
  refine ⟨?_, ?_, ?_, ?_, ?_, ?_⟩
  · intro hret
    rcases Option.ne_none_iff_exists'.mp hret with ⟨r, hr2⟩
    simp [renew_loan, hr2]
  · intro hret hd
    simp [renew_loan, hret, hd]
  · intro hret hd hc
    simp [renew_loan, hret, hd, hc]
  · intro hret hd hc
    refine ⟨?_, rfl, rfl⟩
    simp only [renew_loan, hret, Option.isSome_none, Bool.false_eq_true,
      if_false, if_neg hd, if_neg (Nat.not_le_of_lt hc), renewed_loan]
  · intro s2 h
    cases hl : find_loan s.loans lid member.id with
    | none =>
      simp only [sys_renew_loan, hl] at h
      exact Except.noConfusion h
    | some loan2 =>
      cases hrl : renew_loan now loan2 with
      | error e =>
        simp only [sys_renew_loan, hl, hrl] at h
        exact Except.noConfusion h
      | ok loan3 =>
        simp only [sys_renew_loan, hl, hrl] at h
        injection h with h
        subst h
        rfl
  · intro ha e h
    cases e <;>
      simp [renew_loan_route, ha, h, Bool.false_eq_true]

/-- Witness for C3: the returned loan, the overdue date and the maxed
counter each fail as stated, the route surfaces the limit error with
the state untouched, and a fresh renewal extends the due date. -/
theorem renew_loan_contract_witness :
    renew_loan 5 returnedLoan = .error .alreadyReturned ∧
    renew_loan 20 activeLoan = .error .overdue ∧
    renew_loan 5 maxedLoan = .error .renewalLimitReached ∧
    renew_loan 5 activeLoan = .ok (renewed_loan activeLoan) ∧
    ({ borrowedState with
        loans := update_loan borrowedState.loans (renewed_loan activeLoan) }
      : LibraryState).books = borrowedState.books ∧
    renew_loan_route 5 aliceMember 0 maxedState
      = ([errMessage .renewalLimitReached], maxedState) := by
  refine ⟨(renew_loan_contract 5 returnedLoan aliceMember 0 maxedState).1
            (by decide),
          (renew_loan_contract 20 activeLoan aliceMember 0 maxedState).2.1
            rfl (by decide),
          (renew_loan_contract 5 maxedLoan aliceMember 0 maxedState).2.2.1
            rfl (by decide) (by decide),
          ((renew_loan_contract 5 activeLoan aliceMember 0 maxedState).2.2.2.1
            rfl (by decide) (by decide)).1,
          (renew_loan_contract 5 activeLoan aliceMember 0
            borrowedState).2.2.2.2.1 _ rfl,
          (renew_loan_contract 5 maxedLoan aliceMember 0 maxedState).2.2.2.2.2
            rfl .renewalLimitReached rfl⟩

/-- C4: `return_loan(loan)` fails with the already-returned error when
`returnDate` is already set; on success it sets `returnDate` to the
current date and increments the associated book's availability counter
by one, persisting both. -/
theorem return_loan_contract
    (now : Int) (loan : Loan) (book : Book) (member : Member) (lid : Nat)
    (s : LibraryState) :
    (loan.returnDate ≠ none →
      return_loan now loan book = .error .alreadyReturned) ∧
    (loan.returnDate = none →
      return_loan now loan book = .ok
        ({ loan with returnDate := some now },
         { book with available := book.available + 1 })) ∧
    (find_loan s.loans lid member.id = some loan →
     find_book s.books loan.book = some book →
     loan.returnDate = none →
      sys_return_loan now member lid s = .ok
        { s with
          loans := update_loan s.loans { loan with returnDate := some now },
          books := update_book s.books
            { book with available := book.available + 1 } } ∧
      find_book (update_book s.books { book with available := book.available + 1 })
        loan.book = some { book with available := book.available + 1 } ∧
      find_loan (update_loan s.loans { loan with returnDate := some now }) lid
        member.id = some { loan with returnDate := some now }) := by
  refine ⟨?_, ?_, ?_⟩
  · intro hret
    rcases Option.ne_none_iff_exists'.mp hret with ⟨r, hr2⟩
    simp [return_loan, hr2]
  · intro hret
    simp [return_loan, hret]
  · intro hl hb hret
    refine ⟨sys_return_loan_ok now hl hb hret, ?_, ?_⟩
    · exact find_book_update_self hb (find_book_eq_some hb).2
    · exact find_loan_update_self hl (find_loan_eq_some hl).2.1
        (find_loan_eq_some hl).2.2

/-- Witness for C4: returning the already-returned loan fails, and
returning the outstanding sample loan stamps today's date and restores
the book's availability. -/
theorem return_loan_contract_witness :
    return_loan 9 returnedLoan duneBook = .error .alreadyReturned ∧
    sys_return_loan 9 aliceMember 0 borrowedState = .ok
      { borrowedState with
        loans := update_loan borrowedState.loans
          { activeLoan with returnDate := some 9 },
        books := update_book borrowedState.books
          { ({ duneBook with available := 0 } : Book) with
            available := ({ duneBook with available := 0 } : Book).available + 1 } } ∧
    find_loan (update_loan borrowedState.loans
        { activeLoan with returnDate := some 9 }) 0 1
      = some { activeLoan with returnDate := some 9 } := by
  have h := (return_loan_contract 9 activeLoan
    ({ duneBook with available := 0 }) aliceMember 0 borrowedState).2.2
    rfl rfl rfl
  exact ⟨(return_loan_contract 9 returnedLoan duneBook aliceMember 0
            borrowedState).1 (by decide),
         h.1, h.2.2⟩

/-- C5: `delete_loan(loan)` fails with the not-returned error when
`returnDate` is null; on success it removes the loan record
permanently — no book is mutated and the record can no longer be
retrieved by any member. -/
theorem delete_loan_contract
    (loan : Loan) (member : Member) (lid : Nat) (s : LibraryState) :
    (loan.returnDate = none → delete_loan loan = .error .notReturned) ∧
    (find_loan s.loans lid member.id = some loan → loan.returnDate = none →
      sys_delete_loan member lid s = .error .notReturned) ∧
    (find_loan s.loans lid member.id = some loan → loan.returnDate ≠ none →
      sys_delete_loan member lid s = .ok
        { s with loans := s.loans.filter fun x => x.id ≠ lid } ∧
      ({ s with loans := s.loans.filter fun x => x.id ≠ lid }
        : LibraryState).books = s.books ∧
      ∀ mid, find_loan (s.loans.filter fun x => x.id ≠ lid) lid mid = none) := by
  refine ⟨?_, ?_, ?_⟩
  · intro hret
    simp [delete_loan, hret]
  · intro hl hret
    simp only [sys_delete_loan, hl, delete_loan, hret, Option.isNone_none,
      if_true]
  · intro hl hret
    refine ⟨sys_delete_loan_ok hl hret, rfl, ?_⟩
    intro mid
    refine find_loan_eq_none fun l hl2 => ?_
    have := (List.mem_filter.mp hl2).2
    simpa using this

/-- Witness for C5: deleting the outstanding loan fails, deleting the
returned loan succeeds, keeps books intact, and the record is gone for
every member id. -/
theorem delete_loan_contract_witness :
    sys_delete_loan aliceMember 0 borrowedState = .error .notReturned ∧
    sys_delete_loan aliceMember 0 returnedState = .ok
      { returnedState with
        loans := returnedState.loans.filter fun x => x.id ≠ 0 } ∧
    ({ returnedState with
        loans := returnedState.loans.filter fun x => x.id ≠ 0 }
      : LibraryState).books = returnedState.books ∧
    ∀ mid, find_loan (returnedState.loans.filter fun x => x.id ≠ 0) 0 mid
      = none := by
  have h := (delete_loan_contract returnedLoan aliceMember 0 returnedState).2.2
    rfl (by decide)
  exact ⟨(delete_loan_contract activeLoan aliceMember 0 borrowedState).2.1
           rfl rfl,
         h.1, h.2.1, h.2.2⟩

/-- C6: every mutating loan operation either fully succeeds or fully
fails: whenever the underlying transaction reports an error, the route
hands back exactly the state it was given; in particular creating a
loan against a book with `available = 0` fails with the no-copies
error and leaves all state unchanged. -/
theorem loan_operations_atomic
    (now : Int) (member : Member) (title : String) (lid : Nat)
    (s : LibraryState) :
    (∀ e, sys_make_loan now member title s = .error e →
      (make_loan_route now member title s).2 = s) ∧
    (∀ e, sys_renew_loan now member lid s = .error e →
      (renew_loan_route now member lid s).2 = s) ∧
    (∀ e, sys_return_loan now member lid s = .error e →
      (return_loan_route now member lid s).2 = s) ∧
    (∀ e, sys_delete_loan member lid s = .error e →
      (delete_loan_route member lid s).2 = s) ∧
    (∀ book, member.is_admin = false → find_book s.books title = some book →
      book.available = 0 →
      sys_make_loan now member title s = .error .noCopiesAvailable ∧
      make_loan_route now member title s
        = ([errMessage .noCopiesAvailable], s)) := by
  refine ⟨?_, ?_, ?_, ?_, ?_⟩
  · intro e h
    cases ha : member.is_admin with
    | true => simp [make_loan_route, ha]
    | false => cases e <;> simp [make_loan_route, ha, h]
  · intro e h
    cases ha : member.is_admin with
    | true => simp [renew_loan_route, ha]
    | false => cases e <;> simp [renew_loan_route, ha, h]
  · intro e h
    cases ha : member.is_admin with
    | true => simp [return_loan_route, ha]
    | false => cases e <;> simp [return_loan_route, ha, h]
  · intro e h
    cases ha : member.is_admin with
    | true => simp [delete_loan_route, ha]
    | false => cases e <;> simp [delete_loan_route, ha, h]
  · intro book ha hb hav
    have h := sys_make_loan_noCopies now hb ha hav
    refine ⟨h, ?_⟩
    simp [make_loan_route, ha, h]

/-- Witness for C6: each failing route on the sample states returns
its input state, and borrowing the exhausted book fails with the
no-copies flash while changing nothing. -/
theorem loan_operations_atomic_witness :
    (make_loan_route 5 aliceMember "Empty" emptyState).2 = emptyState ∧
    (renew_loan_route 5 aliceMember 0 maxedState).2 = maxedState ∧
    (return_loan_route 5 aliceMember 0 returnedState).2 = returnedState ∧
    (delete_loan_route aliceMember 0 borrowedState).2 = borrowedState ∧
    (sys_make_loan 5 aliceMember "Empty" emptyState
       = .error .noCopiesAvailable ∧
     make_loan_route 5 aliceMember "Empty" emptyState
       = ([errMessage .noCopiesAvailable], emptyState)) := by
  refine ⟨(loan_operations_atomic 5 aliceMember "Empty" 0 emptyState).1
            .noCopiesAvailable rfl,
          (loan_operations_atomic 5 aliceMember "Empty" 0 maxedState).2.1
            .renewalLimitReached rfl,
          (loan_operations_atomic 5 aliceMember "Empty" 0 returnedState).2.2.1
            .alreadyReturned rfl,
          (loan_operations_atomic 5 aliceMember "Empty" 0 borrowedState).2.2.2.1
            .notReturned rfl,
          (loan_operations_atomic 5 aliceMember "Empty" 0 emptyState).2.2.2.2
            emptyBook rfl rfl rfl⟩

/-- C7: for every member and every book with at least one available
copy, creating a loan and then returning the resulting loan restores
the book's availability counter to its pre-borrow value: the
re-fetched book document equals the original. -/
theorem create_then_return_restores_available
    (now now2 : Int) (member : Member) (title : String) (s : LibraryState)
    (book : Book)
    (ha : member.is_admin = false)
    (hfresh : ∀ l ∈ s.loans, l.id ≠ s.nextLoanId)
    (hb : find_book s.books title = some book)
    (hav : book.available ≠ 0) :
    ∃ s1 s2, sys_make_loan now member title s = .ok s1 ∧
      sys_return_loan now2 member s.nextLoanId s1 = .ok s2 ∧
      find_book s2.books title = some book := by
  have hbtitle : book.title = title := (find_book_eq_some hb).2
  have h1 := sys_make_loan_ok now hb ha hav
  have hb1 : find_book
      (update_book s.books { book with available := book.available - 1 })
      title = some { book with available := book.available - 1 } :=
    find_book_update_self hb hbtitle
  have hl1 : find_loan (s.loans ++ [made_loan now s.nextLoanId member book])
      s.nextLoanId member.id = some (made_loan now s.nextLoanId member book) := by
    rw [find_loan_append hfresh, find_loan, if_pos ⟨rfl, rfl⟩]
  have hb2 : find_book
      (update_book s.books { book with available := book.available - 1 })
      (made_loan now s.nextLoanId member book).book
      = some { book with available := book.available - 1 } := by
    rw [show (made_loan now s.nextLoanId member book).book = title
      from hbtitle]
    exact hb1
  refine ⟨_, _, h1,
    sys_return_loan_ok now2 (s :=
      { books := update_book s.books
          { book with available := book.available - 1 },
        loans := s.loans ++ [made_loan now s.nextLoanId member book],
        nextLoanId := s.nextLoanId + 1 })
      hl1 hb2 rfl, ?_⟩
  -- the twice-updated book equals the original
  show find_book (update_book
      (update_book s.books { book with available := book.available - 1 })
      { book with available := book.available - 1 + 1 }) title = some book
  have h3 : ({ book with available := book.available - 1 + 1 } : Book)
      = book := by
    rw [Int.sub_add_cancel]
  rw [h3]
  exact find_book_update_self hb1 hbtitle

/-- Witness for C7: borrowing the sample book and returning the new
loan yields a state in which the book is fetched unchanged. -/
theorem create_then_return_restores_available_witness :
    ∃ s1 s2, sys_make_loan 5 aliceMember "Dune" sampleState = .ok s1 ∧
      sys_return_loan 9 aliceMember 0 s1 = .ok s2 ∧
      find_book s2.books "Dune" = some duneBook := by
  exact create_then_return_restores_available 5 9 aliceMember "Dune"
    sampleState duneBook rfl (by decide) rfl (by decide)

/-- C8: the business-rule `ValidationError` is the only error kind the
core loan operations raise (each operation's failures range over the
business-rule constructors only), and every such error's message is
flashed verbatim by the route handlers as the failure reason. -/
theorem validation_errors_surfaced_verbatim
    (now : Int) (nid : Nat) (member : Member) (book : Book) (loan : Loan)
    (title : String) (lid : Nat) (s : LibraryState) :
    (∀ e, create_loan now nid member book = .error e →
      e = .adminNotPermitted ∨ e = .noCopiesAvailable) ∧
    (∀ e, renew_loan now loan = .error e →
      e = .alreadyReturned ∨ e = .overdue ∨ e = .renewalLimitReached) ∧
    (∀ e, return_loan now loan book = .error e → e = .alreadyReturned) ∧
    (∀ e, delete_loan loan = .error e → e = .notReturned) ∧
    (member.is_admin = false → ∀ e, e ≠ .notFound →
      sys_make_loan now member title s = .error e →
      make_loan_route now member title s = ([errMessage e], s)) ∧
    (member.is_admin = false → ∀ e,
      sys_renew_loan now member lid s = .error e →
      renew_loan_route now member lid s = ([errMessage e], s)) ∧
    (member.is_admin = false → ∀ e,
      sys_return_loan now member lid s = .error e →
      return_loan_route now member lid s = ([errMessage e], s)) ∧
    (member.is_admin = false → ∀ e,
      sys_delete_loan member lid s = .error e →
      delete_loan_route member lid s = ([errMessage e], s)) := by
  refine ⟨?_, ?_, ?_, ?_, ?_, ?_, ?_, ?_⟩
  · intro e h
    unfold create_loan at h
    split at h
    · injection h with h
      exact Or.inl h.symm
    · split at h
      · injection h with h
        exact Or.inr h.symm
      · exact Except.noConfusion h
  · intro e h
    unfold renew_loan at h
    split at h
    · injection h with h
      exact Or.inl h.symm
    · split at h
      · injection h with h
        exact Or.inr (Or.inl h.symm)
      · split at h
        · injection h with h
          exact Or.inr (Or.inr h.symm)
        · exact Except.noConfusion h
  · intro e h
    unfold return_loan at h
    split at h
    · injection h with h
      exact h.symm
    · exact Except.noConfusion h
  · intro e h
    unfold delete_loan at h
    split at h
    · injection h with h
      exact h.symm
    · exact Except.noConfusion h
  · intro ha e hne h
    cases e
    case notFound => exact absurd rfl hne
    all_goals simp [make_loan_route, ha, h, Bool.false_eq_true]
  · intro ha e h
    cases e <;> simp [renew_loan_route, ha, h, Bool.false_eq_true]
  · intro ha e h
    cases e <;> simp [return_loan_route, ha, h, Bool.false_eq_true]
  · intro ha e h
    cases e <;> simp [delete_loan_route, ha, h, Bool.false_eq_true]

/-- Witness for C8: concrete failures of each operation carry only
business-rule errors and are flashed verbatim by the routes. -/
theorem validation_errors_surfaced_verbatim_witness :
    (ValidationError.noCopiesAvailable = .adminNotPermitted ∨
     ValidationError.noCopiesAvailable = .noCopiesAvailable) ∧
    (ValidationError.renewalLimitReached = .alreadyReturned ∨
     ValidationError.renewalLimitReached = .overdue ∨
     ValidationError.renewalLimitReached = .renewalLimitReached) ∧
    ValidationError.alreadyReturned = .alreadyReturned ∧
    ValidationError.notReturned = .notReturned ∧
    make_loan_route 5 aliceMember "Empty" emptyState
      = ([errMessage .noCopiesAvailable], emptyState) ∧
    renew_loan_route 5 aliceMember 0 maxedState
      = ([errMessage .renewalLimitReached], maxedState) ∧
    return_loan_route 5 aliceMember 0 returnedState
      = ([errMessage .alreadyReturned], returnedState) ∧
    delete_loan_route aliceMember 0 borrowedState
      = ([errMessage .notReturned], borrowedState) := by
  have h := validation_errors_surfaced_verbatim 5 0 aliceMember emptyBook
    maxedLoan "Empty" 0 emptyState
  refine ⟨h.1 .noCopiesAvailable rfl,
          h.2.1 .renewalLimitReached ?_,
          (validation_errors_surfaced_verbatim 5 0 aliceMember duneBook
            returnedLoan "Dune" 0 returnedState).2.2.1 .alreadyReturned rfl,
          (validation_errors_surfaced_verbatim 5 0 aliceMember duneBook
            activeLoan "Dune" 0 borrowedState).2.2.2.1 .notReturned rfl,
          h.2.2.2.2.1 rfl .noCopiesAvailable (by decide) rfl,
          (validation_errors_surfaced_verbatim 5 0 aliceMember duneBook
            maxedLoan "Dune" 0 maxedState).2.2.2.2.2.1 rfl
            .renewalLimitReached rfl,
          (validation_errors_surfaced_verbatim 5 0 aliceMember duneBook
            returnedLoan "Dune" 0 returnedState).2.2.2.2.2.2.1 rfl
            .alreadyReturned rfl,
          (validation_errors_surfaced_verbatim 5 0 aliceMember duneBook
            activeLoan "Dune" 0 borrowedState).2.2.2.2.2.2.2 rfl
            .notReturned rfl⟩
  rfl

/-- C9: `my_loans(member)` returns exactly the loans owned by the
member, ordered by borrow date descending (most recent first), with no
pagination limit, and does not change the state. -/
theorem my_loans_contract (member : Member) (s : LibraryState)
    (ha : member.is_admin = false) :
    my_loans member s = (some (list_loans s member.id), s) ∧
    (∀ l, l ∈ list_loans s member.id ↔ l ∈ s.loans ∧ l.member = member.id) ∧
    (list_loans s member.id).Pairwise fun a b =>
      b.borrowDate ≤ a.borrowDate := by
  refine ⟨by simp [my_loans, ha], ?_, ?_⟩
  · intro l
    simp [list_loans, List.mem_mergeSort, List.mem_filter]
  · have hs := @List.sorted_mergeSort Loan
      (fun a b : Loan => decide (b.borrowDate ≤ a.borrowDate))
      (fun a b c h1 h2 => by
        simp only [decide_eq_true_eq] at h1 h2 ⊢
        omega)
      (fun a b => by
        simp only [Bool.or_eq_true, decide_eq_true_eq]
        omega)
      (s.loans.filter fun l => l.member = member.id)
    exact hs.imp fun h => by simpa using h

/-- Witness for C9: the sample member's history is returned in full,
read-only, and sorted most-recent-first. -/
theorem my_loans_contract_witness :
    my_loans aliceMember listState
      = (some (list_loans listState 1), listState) ∧
    (loanA ∈ list_loans listState 1
      ↔ loanA ∈ listState.loans ∧ loanA.member = 1) ∧
    (list_loans listState 1).Pairwise fun a b =>
      b.borrowDate ≤ a.borrowDate := by
  have h := my_loans_contract aliceMember listState rfl
  exact ⟨h.1, h.2.1 loanA, h.2.2⟩

/-- C10: every book created through `add_book` is persisted with its
availability counter equal to its total copy count, so the
`0 ≤ available ≤ copies` invariant holds at creation whenever the
submitted copy count is non-negative. -/
theorem add_book_available_eq_copies
    (title category url : String) (genres description authors : List String)
    (pages copies : Int) (s : LibraryState) :
    (add_book title category url genres description authors pages copies
        s).books
      = s.books
        ++ [new_book title category url genres description authors pages
              copies] ∧
    (new_book title category url genres description authors pages
        copies).available
      = (new_book title category url genres description authors pages
          copies).copies ∧
    (0 ≤ copies →
      0 ≤ (new_book title category url genres description authors pages
            copies).available ∧
      (new_book title category url genres description authors pages
          copies).available
        ≤ (new_book title category url genres description authors pages
            copies).copies) :=
  ⟨rfl, rfl, fun h => ⟨h, le_refl _⟩⟩

/-- Witness for C10: adding a sample book with three copies persists
it with three available and the range invariant intact. -/
theorem add_book_available_eq_copies_witness :
    (add_book "T" "C" "u" [] [] [] 10 3 sampleState).books
      = sampleState.books ++ [new_book "T" "C" "u" [] [] [] 10 3] ∧
    (new_book "T" "C" "u" [] [] [] 10 3).available
      = (new_book "T" "C" "u" [] [] [] 10 3).copies ∧
    (0 ≤ (new_book "T" "C" "u" [] [] [] 10 3).available ∧
      (new_book "T" "C" "u" [] [] [] 10 3).available
        ≤ (new_book "T" "C" "u" [] [] [] 10 3).copies) := by
  have h := add_book_available_eq_copies "T" "C" "u" [] [] [] 10 3 sampleState
  exact ⟨h.1, h.2.1, h.2.2 (by decide)⟩
